import Mathlib

/-!
Verification of the ClearSkies monitoring agent core.

Shallow embedding of the agent's core modules:
  * `agent/src/thresholdEngine.ts` — threshold tables, `evaluateThresholds`,
    `shouldClearHold`;
  * `agent/src/weatherPoller.ts` — `capeToProbability` and the thunderstorm-code
    override in `fetchWeather`;
  * `agent/src/geotabResolver.ts` — `normalizePhone`;
  * `agent/src/alertDispatcher.ts` — `sendHoldAlerts` / `sendAllClearAlerts`;
  * `agent/src/index.ts` + `agent/src/supabaseClient.ts` — `processSite`,
    `poll`, and the persistence operations `getActiveHold`, `createHold`,
    `closeHold`, `logNotification` acting on an explicit per-site state.

JavaScript numbers are modelled as `ℚ` (all arithmetic in these modules is
exact on the values that occur), timestamps as millisecond values in `ℚ`
(`Date.now()` / `new Date().getTime()`), and `Math.round` as
`jsRound q = ⌊q + 1/2⌋` (JavaScript rounds half toward +∞).  Fallible
external calls (weather fetch, Geotab query, Twilio send, Supabase
reads/writes) are modelled by explicit outcome oracles supplied as input to
each cycle, and a thrown error that escapes a function is modelled by a
`Bool` error flag paired with the state as written so far.
-/

/-- The four OSHA rules of `types.ts` (`OshaRule`). -/
inductive OshaRule where
  | LIGHTNING_30_30
  | HIGH_WIND_GENERAL
  | HIGH_WIND_MATERIAL_HANDLING
  | EXTREME_HEAT
deriving DecidableEq, Repr

/-- Threshold table (`thresholdEngine.ts`, interface `Thresholds`). -/
structure Thresholds where
  lightningPct : ℚ
  highWindGeneralMph : ℚ
  highWindMaterialMph : ℚ
  extremeHeatC : ℚ
deriving DecidableEq, Repr

/-- Production threshold preset (`thresholdEngine.ts`, `PROD`). -/
def PROD : Thresholds :=
  { lightningPct := 40
    highWindGeneralMph := 40
    highWindMaterialMph := 30
    extremeHeatC := 38 }

/-- Demo threshold preset (`thresholdEngine.ts`, `DEMO`). -/
def DEMO : Thresholds :=
  { lightningPct := 10
    highWindGeneralMph := 5
    highWindMaterialMph := 3
    extremeHeatC := 25 }

/-- Weather snapshot (`types.ts`, `WeatherSnapshot`).  The `timestamp` and
`raw` audit fields play no role in any evaluated rule and are omitted. -/
structure WeatherSnapshot where
  wind_speed_mph : ℚ
  wind_gust_mph : ℚ
  apparent_temp_c : ℚ
  lightning_probability_pct : ℚ
  weather_code : ℤ
deriving DecidableEq, Repr

/-- Threshold breach (`types.ts`, `OshaThresholdBreach`). -/
structure OshaThresholdBreach where
  rule : OshaRule
  value : ℚ
  threshold : ℚ
  hold_duration_mins : Option ℚ
deriving DecidableEq, Repr

/-- Position of a rule in the `priority` array of `evaluateThresholds`
(`priority.indexOf`). -/
def priorityIndex : OshaRule → ℕ
  | .LIGHTNING_30_30 => 0
  | .HIGH_WIND_GENERAL => 1
  | .HIGH_WIND_MATERIAL_HANDLING => 2
  | .EXTREME_HEAT => 3

/-- The `breaches` array built by `evaluateThresholds` before sorting:
lightning, then high wind (general, else material handling), then heat. -/
def breachList (t : Thresholds) (w : WeatherSnapshot) : List OshaThresholdBreach :=
  (if w.lightning_probability_pct ≥ t.lightningPct then
    [{ rule := .LIGHTNING_30_30
       value := w.lightning_probability_pct
       threshold := t.lightningPct
       hold_duration_mins := some 30 }]
   else []) ++
  (if w.wind_gust_mph ≥ t.highWindGeneralMph then
    [{ rule := .HIGH_WIND_GENERAL
       value := w.wind_gust_mph
       threshold := t.highWindGeneralMph
       hold_duration_mins := none }]
   else if w.wind_gust_mph ≥ t.highWindMaterialMph then
    [{ rule := .HIGH_WIND_MATERIAL_HANDLING
       value := w.wind_gust_mph
       threshold := t.highWindMaterialMph
       hold_duration_mins := none }]
   else []) ++
  (if w.apparent_temp_c ≥ t.extremeHeatC then
    [{ rule := .EXTREME_HEAT
       value := w.apparent_temp_c
       threshold := t.extremeHeatC
       hold_duration_mins := none }]
   else [])

/-- `evaluateThresholds` (`thresholdEngine.ts`): build the breach list, return
`null` when it is empty, otherwise sort it by priority index and return the
first element.  JavaScript `Array.prototype.sort` is a stable sort; it is
modelled by the stable `List.insertionSort`, and `head?` combines the empty
check with taking element 0.  The active threshold table (`getThresholds()`,
a single process-wide setting) is passed as the parameter `t`. -/
def evaluateThresholds (t : Thresholds) (w : WeatherSnapshot) : Option OshaThresholdBreach :=
  ((breachList t w).insertionSort
    fun a b => priorityIndex a.rule ≤ priorityIndex b.rule).head?

/-- The condition of a single rule on a snapshot, exactly as each `if` of
`evaluateThresholds` tests it. -/
def ruleCondition (t : Thresholds) (w : WeatherSnapshot) : OshaRule → Prop
  | .LIGHTNING_30_30 => w.lightning_probability_pct ≥ t.lightningPct
  | .HIGH_WIND_GENERAL => w.wind_gust_mph ≥ t.highWindGeneralMph
  | .HIGH_WIND_MATERIAL_HANDLING => w.wind_gust_mph ≥ t.highWindMaterialMph
  | .EXTREME_HEAT => w.apparent_temp_c ≥ t.extremeHeatC

instance (t : Thresholds) (w : WeatherSnapshot) (r : OshaRule) :
    Decidable (ruleCondition t w r) := by
  cases r <;> (unfold ruleCondition; infer_instance)

/-- `shouldClearHold` (`thresholdEngine.ts`).  `Date.now()` is passed
explicitly as `nowMs`; `triggeredAt.getTime()` as `triggeredAtMs`. -/
def shouldClearHold (t : Thresholds) (rule : OshaRule) (w : WeatherSnapshot)
    (triggeredAtMs nowMs : ℚ) (holdDurationMins : Option ℚ) : Bool :=
  match holdDurationMins with
  | some d => decide (nowMs - triggeredAtMs ≥ d * 60 * 1000)
  | none =>
    match rule with
    | .HIGH_WIND_GENERAL => decide (w.wind_gust_mph < t.highWindGeneralMph)
    | .HIGH_WIND_MATERIAL_HANDLING => decide (w.wind_gust_mph < t.highWindMaterialMph)
    | .EXTREME_HEAT => decide (w.apparent_temp_c < t.extremeHeatC)
    | .LIGHTNING_30_30 => false

/-- `Math.round` of JavaScript: round half toward positive infinity. -/
def jsRound (q : ℚ) : ℤ := ⌊q + 1 / 2⌋

/-- `capeToProbability` (`weatherPoller.ts`): four linear buckets mapping the
CAPE (storm-potential energy, J/kg) figure to a lightning probability. -/
def capeToProbability (cape : ℚ) : ℤ :=
  if cape < 100 then jsRound (cape / 100 * 10)
  else if cape < 500 then jsRound (10 + (cape - 100) / 400 * 20)
  else if cape < 1500 then jsRound (30 + (cape - 500) / 1000 * 30)
  else min 90 (jsRound (60 + (cape - 1500) / 2000 * 30))

/-- `THUNDERSTORM_CODES` (`weatherPoller.ts`): WMO codes 95, 96, 99. -/
def THUNDERSTORM_CODES : List ℤ := [95, 96, 99]

/-- The lightning-probability computation of `fetchWeather`
(`weatherPoller.ts`): `capeToProbability`, then the override to 50 when the
computed value is below 40 and the current WMO weather code is a
thunderstorm code. -/
def fetchWeatherLightningPct (cape : ℚ) (weather_code : ℤ) : ℤ :=
  let lightningPct := capeToProbability cape
  if lightningPct < 40 ∧ weather_code ∈ THUNDERSTORM_CODES then 50
  else lightningPct

/-- The digit filter of `normalizePhone` (`geotabResolver.ts`):
`raw.replace(/\D/g, "")`. -/
def stripNonDigits (raw : List Char) : List Char := raw.filter fun c => c.isDigit

/-- `normalizePhone` (`geotabResolver.ts`): strip non-digits, then prefix
`+` (E.164), inserting a leading `1` when the number has exactly ten
digits.  Strings are modelled as `List Char`; `digits.startsWith("1")` is
`digits.head? = some '1'`. -/
def normalizePhone (raw : List Char) : List Char :=
  let digits := stripNonDigits raw
  if digits.head? = some '1' ∧ digits.length = 11 then '+' :: digits
  else if digits.length = 10 then '+' :: '1' :: digits
  else '+' :: digits

/-- Message category of a notification (`types.ts`, `message_type`). -/
inductive MessageType where
  | hold
  | all_clear
deriving DecidableEq, Repr

/-- `NotificationRecord` (`types.ts`).  `sent_at` is the millisecond value of
the `new Date().toISOString()` timestamp. -/
structure NotificationRecord where
  driver_name : Option String
  phone_number : String
  message_type : MessageType
  sent_at : ℚ
  twilio_sid : String
  status : String
deriving DecidableEq, Repr

/-- One row of the `notification_log` table, as written by `logNotification`
(`supabaseClient.ts`): the hold id plus the record fields. -/
structure LoggedNotification where
  hold_id : String
  record : NotificationRecord
deriving DecidableEq, Repr

/-- `VehicleOnSite` (`types.ts`). -/
structure VehicleOnSite where
  device_id : String
  device_name : String
  driver_name : Option String
  driver_id : Option String
  phone_number : Option String
  lat : ℚ
  lng : ℚ
  speed : ℚ
  date_time : String
deriving DecidableEq, Repr

/-- Outcome of one provider call of the alert dispatcher: whether the Twilio
`messages.create` call succeeds (and, if so, the returned `sid` and
`status`), and whether the following `logNotification` insert succeeds. -/
structure SendOutcome where
  sendOk : Bool
  sid : String
  status : String
  logOk : Bool

/-- What one run of `sendHoldAlerts` / `sendAllClearAlerts`
(`alertDispatcher.ts`) produces: the returned `results` array, the
`notification_log` rows written during the run (in order), and the phone
numbers for which a Twilio `messages.create` call was made (in order, one
entry per call). -/
structure DispatchResult where
  results : List NotificationRecord
  log : List LoggedNotification
  attempts : List String
deriving Repr

/-- The shared per-vehicle loop of `sendHoldAlerts` and `sendAllClearAlerts`
(`alertDispatcher.ts`; the two functions differ only in message wording and
`message_type`).  A vehicle without a phone number is skipped with a
warning.  Otherwise a Twilio send is attempted; the k-th provider call of
the run takes its outcome from `oracle k`.  On success a
`NotificationRecord` is built, persisted via `logNotification`, and pushed
onto `results`; a thrown send or log error is caught, logged to the
console, and produces nothing. -/
def sendAlertsLoop (mt : MessageType) (holdId : String) (nowMs : ℚ)
    (oracle : ℕ → SendOutcome) : List VehicleOnSite → ℕ → DispatchResult
  | [], _ => { results := [], log := [], attempts := [] }
  | v :: vs, k =>
    match v.phone_number with
    | none => sendAlertsLoop mt holdId nowMs oracle vs k
    | some phone =>
      let o := oracle k
      let rest := sendAlertsLoop mt holdId nowMs oracle vs (k + 1)
      if o.sendOk then
        let r : NotificationRecord :=
          { driver_name := v.driver_name
            phone_number := phone
            message_type := mt
            sent_at := nowMs
            twilio_sid := o.sid
            status := o.status }
        if o.logOk then
          { results := r :: rest.results
            log := { hold_id := holdId, record := r } :: rest.log
            attempts := phone :: rest.attempts }
        else
          { results := rest.results, log := rest.log, attempts := phone :: rest.attempts }
      else
        { results := rest.results, log := rest.log, attempts := phone :: rest.attempts }

/-- `sendHoldAlerts` (`alertDispatcher.ts`).  The hold duration only changes
the message wording. -/
def sendHoldAlerts (holdId : String) (_holdDurationMins : Option ℚ) (nowMs : ℚ)
    (oracle : ℕ → SendOutcome) (vehicles : List VehicleOnSite) : DispatchResult :=
  sendAlertsLoop .hold holdId nowMs oracle vehicles 0

/-- `sendAllClearAlerts` (`alertDispatcher.ts`). -/
def sendAllClearAlerts (holdId : String) (nowMs : ℚ)
    (oracle : ℕ → SendOutcome) (vehicles : List VehicleOnSite) : DispatchResult :=
  sendAlertsLoop .all_clear holdId nowMs oracle vehicles 0

/-- `HoldRecord` (`types.ts`): one row of `holds_log`.  Timestamps are in
milliseconds; `all_clear_at = none` means the hold is open. -/
structure HoldRecord where
  id : String
  site_id : String
  triggered_at : ℚ
  trigger_rule : OshaRule
  weather_snapshot : WeatherSnapshot
  vehicles_on_site : List VehicleOnSite
  hold_duration_mins : Option ℚ
  all_clear_at : Option ℚ
  issued_by : String
  notifications_sent : Option (List NotificationRecord)
deriving DecidableEq, Repr

/-- The stored state of one site: its `holds_log` rows (in insertion order)
and the `notification_log` rows (in insertion order). -/
structure SiteState where
  holds : List HoldRecord
  notificationLog : List LoggedNotification
deriving DecidableEq, Repr

/-- The open holds of a site: rows with `all_clear_at` null. -/
def openHolds (s : SiteState) : List HoldRecord :=
  s.holds.filter fun h => h.all_clear_at = none

/-- `getActiveHold` (`supabaseClient.ts`): among the rows of this site with
`all_clear_at` null, the one with the latest `triggered_at`
(`order by triggered_at desc, limit 1, maybeSingle`). -/
def getActiveHold (s : SiteState) : Option HoldRecord :=
  ((openHolds s).insertionSort fun a b => b.triggered_at ≤ a.triggered_at).head?

/-- `createHold` (`supabaseClient.ts`): insert a new `holds_log` row with
`all_clear_at` null and `issued_by = "auto"`.  The database-generated row id
is supplied by the caller as `newId`. -/
def createHold (s : SiteState) (newId siteId : String) (rule : OshaRule)
    (snapshot : WeatherSnapshot) (vehicles : List VehicleOnSite)
    (durationMins : Option ℚ) (nowMs : ℚ) : SiteState × HoldRecord :=
  let row : HoldRecord :=
    { id := newId
      site_id := siteId
      triggered_at := nowMs
      trigger_rule := rule
      weather_snapshot := snapshot
      vehicles_on_site := vehicles
      hold_duration_mins := durationMins
      all_clear_at := none
      issued_by := "auto"
      notifications_sent := none }
  ({ s with holds := s.holds ++ [row] }, row)

/-- `closeHold` (`supabaseClient.ts`): set `all_clear_at` and
`notifications_sent` on the rows whose `id` matches. -/
def closeHold (s : SiteState) (holdId : String)
    (notifications : List NotificationRecord) (nowMs : ℚ) : SiteState :=
  { s with
    holds := s.holds.map fun h =>
      if h.id = holdId then
        { h with all_clear_at := some nowMs, notifications_sent := some notifications }
      else h }

/-- The per-cycle, per-site input of `processSite` (`index.ts`): the current
time, the outcome of each external call the pipeline may make, and the row
id the database would assign to a newly created hold.  A `none` /
`true`-flag entry models the corresponding call throwing. -/
structure CycleInput where
  nowMs : ℚ
  fetchResult : Option WeatherSnapshot
  lookupFails : Bool
  vehiclesResult : Option (List VehicleOnSite)
  createFails : Bool
  newHoldId : String
  closeFails : Bool
  sendOracle : ℕ → SendOutcome

/-- `processSite` (`index.ts`).  Returns the site state after the pipeline
step together with `true` when the step returned normally and `false` when
it threw (the state then holds exactly the writes made before the throw).

Faithful to the source:
  * `fetchWeather(site).catch(() => null)` and
    `getActiveHold(siteId).catch(() => null)` swallow those two errors;
  * a missing weather snapshot skips the site (normal return);
  * with an active hold, `shouldClearHold` decides between a no-op and
    all-clear dispatch followed by `closeHold`;
  * with no active hold and a breach, `getVehiclesInZone` (which may throw),
    `createHold` (which may throw), then `sendHoldAlerts` (which never
    throws). -/
def processSite (t : Thresholds) (siteId : String) (inp : CycleInput)
    (s : SiteState) : SiteState × Bool :=
  let weatherOpt := inp.fetchResult
  let activeHoldOpt := if inp.lookupFails then none else getActiveHold s
  match weatherOpt with
  | none => (s, true)
  | some weather =>
    let breachOpt := evaluateThresholds t weather
    match activeHoldOpt with
    | some activeHold =>
      if shouldClearHold t activeHold.trigger_rule weather activeHold.triggered_at
          inp.nowMs activeHold.hold_duration_mins then
        let d := sendAllClearAlerts activeHold.id inp.nowMs inp.sendOracle
          activeHold.vehicles_on_site
        let s1 : SiteState := { s with notificationLog := s.notificationLog ++ d.log }
        if inp.closeFails then (s1, false)
        else (closeHold s1 activeHold.id d.results inp.nowMs, true)
      else (s, true)
    | none =>
      match breachOpt with
      | some breach =>
        match inp.vehiclesResult with
        | none => (s, false)
        | some vehicles =>
          if inp.createFails then (s, false)
          else
            let created := createHold s inp.newHoldId siteId breach.rule weather
              vehicles breach.hold_duration_mins inp.nowMs
            let d := sendHoldAlerts created.2.id breach.hold_duration_mins inp.nowMs
              inp.sendOracle vehicles
            ({ created.1 with notificationLog := created.1.notificationLog ++ d.log }, true)
      | none => (s, true)

/-- The input of one site pipeline within a cycle of `poll` (`index.ts`). -/
structure SitePipelineInput where
  siteId : String
  input : CycleInput
  state : SiteState

/-- One cycle of `poll` (`index.ts`): one independent pipeline per active
site.  `Promise.allSettled` plus the per-site `catch` collect every site's
outcome without letting one site's error abort the others; the fan-out is
modelled as an independent map, each entry depending only on its own
site's input. -/
def poll (t : Thresholds) (sites : List SitePipelineInput) : List (SiteState × Bool) :=
  sites.map fun p => processSite t p.siteId p.input p.state

/-- Iterated monitoring cycles for one site: fold `processSite` over a list
of per-cycle inputs, keeping only the stored state (`poll` runs once per
`POLL_INTERVAL_MS`). -/
def runCycles (t : Thresholds) (siteId : String) (inputs : List CycleInput)
    (s : SiteState) : SiteState :=
  inputs.foldl (fun st inp => (processSite t siteId inp st).1) s

/-- The invariant of the spec: at most one open hold per site. -/
def holdsInvariant (s : SiteState) : Prop := (openHolds s).length ≤ 1

/-- An oracle under which every Twilio send and every log insert succeeds. -/
def okOracle : ℕ → SendOutcome :=
  fun _ => { sendOk := true, sid := "SM1", status := "queued", logOk := true }

/-- An oracle under which every Twilio send throws. -/
def failOracle : ℕ → SendOutcome :=
  fun _ => { sendOk := false, sid := "", status := "", logOk := true }

/-- A snapshot breaching the production HIGH_WIND_GENERAL threshold. -/
def breachWeather : WeatherSnapshot :=
  { wind_speed_mph := 30, wind_gust_mph := 50, apparent_temp_c := 20
    lightning_probability_pct := 0, weather_code := 0 }

/-- A vehicle with a resolvable phone number. -/
def vehicleDana : VehicleOnSite :=
  { device_id := "d1", device_name := "Truck 1", driver_name := some "Dana"
    driver_id := some "u1", phone_number := some "+15550001111"
    lat := 36, lng := -115, speed := 0, date_time := "2026-01-01T00:00:00Z" }

/-- A cycle in which every external call succeeds and the weather breaches. -/
def cycleNormal : CycleInput :=
  { nowMs := 0, fetchResult := some breachWeather, lookupFails := false
    vehiclesResult := some [], createFails := false, newHoldId := "hold-1"
    closeFails := false, sendOracle := okOracle }

/-- A cycle in which the weather still breaches but the `getActiveHold`
query throws (and is swallowed by `.catch(() => null)`). -/
def cycleLookupDown : CycleInput :=
  { nowMs := 60000, fetchResult := some breachWeather, lookupFails := true
    vehiclesResult := some [], createFails := false, newHoldId := "hold-2"
    closeFails := false, sendOracle := okOracle }

/-- A site with no stored holds or notifications. -/
def emptyState : SiteState := { holds := [], notificationLog := [] }

/-- An open wind hold as `createHold` would store it. -/
def openHold1 : HoldRecord :=
  { id := "hold-1", site_id := "site-1", triggered_at := 0
    trigger_rule := .HIGH_WIND_GENERAL, weather_snapshot := breachWeather
    vehicles_on_site := [], hold_duration_mins := none, all_clear_at := none
    issued_by := "auto", notifications_sent := none }

/-- A site whose stored state has exactly one open hold. -/
def stateOneOpen : SiteState := { holds := [openHold1], notificationLog := [] }

/-- The vehicles of a dispatch that have a resolvable phone number, paired
with that number, in order: exactly the recipients for which the
per-vehicle loop of `sendHoldAlerts` / `sendAllClearAlerts` makes a
provider call (a vehicle with `phone_number` null is skipped). -/
def eligibleVehicles (vs : List VehicleOnSite) : List (VehicleOnSite × String) :=
  vs.filterMap fun v => v.phone_number.map fun p => (v, p)

/-- The `NotificationRecord` the dispatcher builds for vehicle `v` with
phone number `p` from a successful provider call with outcome `o`
(`alertDispatcher.ts`, the record literal after `messages.create`). -/
def attemptRecord (mt : MessageType) (nowMs : ℚ) (v : VehicleOnSite) (p : String)
    (o : SendOutcome) : NotificationRecord :=
  { driver_name := v.driver_name
    phone_number := p
    message_type := mt
    sent_at := nowMs
    twilio_sid := o.sid
    status := o.status }

/-- The breach list is pushed in priority order already, so the sort of
`evaluateThresholds` leaves it unchanged. -/
lemma breachList_sorted (t : Thresholds) (w : WeatherSnapshot) :
    (breachList t w).Sorted fun a b => priorityIndex a.rule ≤ priorityIndex b.rule := by
  unfold breachList
  split_ifs <;> simp [List.Sorted, priorityIndex]

lemma evaluateThresholds_eq_head (t : Thresholds) (w : WeatherSnapshot) :
    evaluateThresholds t w = (breachList t w).head? := by
  unfold evaluateThresholds
  rw [List.Sorted.insertionSort_eq (breachList_sorted t w)]

/-- C2: for every snapshot and threshold table, the evaluator returns at
most one breach (it returns an `Option`), and whenever some rule's
condition holds it returns a breach whose rule's condition holds and whose
priority index is minimal among all rules whose conditions hold — i.e. the
earliest in LIGHTNING_30_30 > HIGH_WIND_GENERAL >
HIGH_WIND_MATERIAL_HANDLING > EXTREME_HEAT. -/
theorem evaluateThresholds_priority (t : Thresholds) (w : WeatherSnapshot)
    (r : OshaRule) (h : ruleCondition t w r) :
    ∃ b, evaluateThresholds t w = some b ∧ ruleCondition t w b.rule ∧
      priorityIndex b.rule ≤ priorityIndex r := by
  rw [evaluateThresholds_eq_head]
  unfold breachList
  split_ifs <;> cases r <;> simp_all [ruleCondition, priorityIndex] <;> linarith

/-- C3: a timed hold (non-null duration) clears exactly when the elapsed time
since trigger reaches the duration, whatever the current snapshot shows; a
condition-based hold (null duration) clears exactly when the measured value
(gust for the wind rules, apparent temperature for heat) is strictly below
the rule's active threshold, whatever the trigger and current times are. -/
theorem shouldClearHold_spec :
    (∀ (t : Thresholds) (r : OshaRule) (w : WeatherSnapshot) (a n d : ℚ),
      shouldClearHold t r w a n (some d) = true ↔ n - a ≥ d * 60 * 1000) ∧
    (∀ (t : Thresholds) (r : OshaRule) (w w' : WeatherSnapshot) (a n d : ℚ),
      shouldClearHold t r w a n (some d) = shouldClearHold t r w' a n (some d)) ∧
    (∀ (t : Thresholds) (w : WeatherSnapshot) (a n : ℚ),
      shouldClearHold t .HIGH_WIND_GENERAL w a n none = true ↔
        w.wind_gust_mph < t.highWindGeneralMph) ∧
    (∀ (t : Thresholds) (w : WeatherSnapshot) (a n : ℚ),
      shouldClearHold t .HIGH_WIND_MATERIAL_HANDLING w a n none = true ↔
        w.wind_gust_mph < t.highWindMaterialMph) ∧
    (∀ (t : Thresholds) (w : WeatherSnapshot) (a n : ℚ),
      shouldClearHold t .EXTREME_HEAT w a n none = true ↔
        w.apparent_temp_c < t.extremeHeatC) := by
  refine ⟨?_, ?_, ?_, ?_, ?_⟩ <;> intros <;> simp [shouldClearHold]

/-- C7: the lightning probability of a fetched snapshot is overridden to
exactly 50 when the bucket-computed value is strictly below 40 and the WMO
code is a thunderstorm code (95, 96, 99), and is the computed value
unchanged otherwise. -/
theorem fetchWeather_lightning_override :
    ∀ (cape : ℚ) (code : ℤ),
      (capeToProbability cape < 40 ∧ code ∈ THUNDERSTORM_CODES →
        fetchWeatherLightningPct cape code = 50) ∧
      (¬(capeToProbability cape < 40 ∧ code ∈ THUNDERSTORM_CODES) →
        fetchWeatherLightningPct cape code = capeToProbability cape) := by
  intro cape code
  constructor <;> intro h <;> unfold fetchWeatherLightningPct
  · rw [if_pos h]
  · rw [if_neg h]

lemma stripNonDigits_idem (raw : List Char) :
    stripNonDigits (stripNonDigits raw) = stripNonDigits raw := by
  unfold stripNonDigits
  induction raw with
  | nil => rfl
  | cons c cs ih =>
    by_cases h : c.isDigit <;> simp [List.filter_cons, h, ih]

lemma normalizePhone_canonical (raw : List Char) :
    normalizePhone raw =
      '+' :: (if (stripNonDigits raw).length = 10 then
        '1' :: stripNonDigits raw else stripNonDigits raw) := by
  unfold normalizePhone
  split_ifs <;> simp_all

/-- C10: `normalizePhone` is idempotent, and its output is a `+` followed by
exactly the digit characters of the input, with a leading `1` inserted
exactly when the input has ten digits. -/
theorem normalizePhone_idem_spec :
    ∀ raw : List Char,
      normalizePhone (normalizePhone raw) = normalizePhone raw ∧
      normalizePhone raw =
        '+' :: (if (stripNonDigits raw).length = 10 then
          '1' :: stripNonDigits raw else stripNonDigits raw) := by
  intro raw
  refine ⟨?_, normalizePhone_canonical raw⟩
  rw [normalizePhone_canonical raw]
  by_cases hlen : (stripNonDigits raw).length = 10
  · rw [if_pos hlen, normalizePhone_canonical]
    have hd : stripNonDigits ('+' :: '1' :: stripNonDigits raw) =
        '1' :: stripNonDigits raw := by
      unfold stripNonDigits
      simp [List.filter_cons, stripNonDigits_idem raw, stripNonDigits]
    rw [hd]
    simp [hlen]
  · rw [if_neg hlen, normalizePhone_canonical]
    have hd : stripNonDigits ('+' :: stripNonDigits raw) = stripNonDigits raw := by
      unfold stripNonDigits
      simp [List.filter_cons, stripNonDigits_idem raw, stripNonDigits]
    rw [hd]
    simp [hlen]

lemma jsRound_mono {x y : ℚ} (h : x ≤ y) : jsRound x ≤ jsRound y :=
  Int.floor_le_floor (by linarith)

lemma jsRound_le {v : ℚ} {n : ℤ} (h : v < (n : ℚ)) : jsRound v ≤ n := by
  rw [Int.lt_add_one_iff.symm]
  unfold jsRound
  rw [Int.floor_lt]
  push_cast
  linarith

lemma le_jsRound {v : ℚ} {n : ℤ} (h : (n : ℚ) ≤ v) : n ≤ jsRound v := by
  unfold jsRound
  rw [Int.le_floor]
  linarith

lemma cape_le_ten {x : ℚ} (hx : x < 100) : capeToProbability x ≤ 10 := by
  unfold capeToProbability
  rw [if_pos hx]
  apply jsRound_le
  push_cast
  rw [div_mul_eq_mul_div, div_lt_iff₀ (by norm_num : (0 : ℚ) < 100)]
  linarith

lemma cape_le_thirty {x : ℚ} (hx : x < 500) : capeToProbability x ≤ 30 := by
  by_cases h1 : x < 100
  · exact le_trans (cape_le_ten h1) (by norm_num)
  · unfold capeToProbability
    rw [if_neg h1, if_pos hx]
    apply jsRound_le
    push_cast
    rw [div_mul_eq_mul_div, show (30 : ℚ) = 10 + 20 * 400 / 400 by norm_num]
    rw [add_lt_add_iff_left, div_lt_div_iff_of_pos_right (by norm_num : (0 : ℚ) < 400)]
    linarith

lemma cape_le_sixty {x : ℚ} (hx : x < 1500) : capeToProbability x ≤ 60 := by
  by_cases h2 : x < 500
  · exact le_trans (cape_le_thirty h2) (by norm_num)
  · unfold capeToProbability
    rw [if_neg (by linarith : ¬x < 100), if_neg h2, if_pos hx]
    apply jsRound_le
    push_cast
    rw [div_mul_eq_mul_div, show (60 : ℚ) = 30 + 30 * 1000 / 1000 by norm_num]
    rw [add_lt_add_iff_left, div_lt_div_iff_of_pos_right (by norm_num : (0 : ℚ) < 1000)]
    linarith

lemma cape_le_ninety (x : ℚ) : capeToProbability x ≤ 90 := by
  by_cases h3 : x < 1500
  · exact le_trans (cape_le_sixty h3) (by norm_num)
  · unfold capeToProbability
    rw [if_neg (by linarith : ¬x < 100), if_neg (by linarith : ¬x < 500), if_neg h3]
    exact min_le_left _ _

lemma cape_ge_ten {x : ℚ} (hx : 100 ≤ x) : 10 ≤ capeToProbability x := by
  unfold capeToProbability
  rw [if_neg (not_lt.mpr hx)]
  split_ifs with h2 h3
  · apply le_jsRound
    have h0 : (0 : ℚ) ≤ (x - 100) / 400 * 20 :=
      mul_nonneg (div_nonneg (by linarith) (by norm_num)) (by norm_num)
    push_cast
    linarith
  · apply le_jsRound
    have h0 : (0 : ℚ) ≤ (x - 500) / 1000 * 30 :=
      mul_nonneg (div_nonneg (by linarith) (by norm_num)) (by norm_num)
    push_cast
    linarith
  · refine le_min (by norm_num) (le_jsRound ?_)
    have h0 : (0 : ℚ) ≤ (x - 1500) / 2000 * 30 :=
      mul_nonneg (div_nonneg (by linarith) (by norm_num)) (by norm_num)
    push_cast
    linarith

lemma cape_ge_thirty {x : ℚ} (hx : 500 ≤ x) : 30 ≤ capeToProbability x := by
  unfold capeToProbability
  rw [if_neg (by linarith : ¬x < 100), if_neg (not_lt.mpr hx)]
  split_ifs with h3
  · apply le_jsRound
    have h0 : (0 : ℚ) ≤ (x - 500) / 1000 * 30 :=
      mul_nonneg (div_nonneg (by linarith) (by norm_num)) (by norm_num)
    push_cast
    linarith
  · refine le_min (by norm_num) (le_jsRound ?_)
    have h0 : (0 : ℚ) ≤ (x - 1500) / 2000 * 30 :=
      mul_nonneg (div_nonneg (by linarith) (by norm_num)) (by norm_num)
    push_cast
    linarith

lemma cape_ge_sixty {x : ℚ} (hx : 1500 ≤ x) : 60 ≤ capeToProbability x := by
  unfold capeToProbability
  rw [if_neg (by linarith : ¬x < 100), if_neg (by linarith : ¬x < 500),
    if_neg (not_lt.mpr hx)]
  refine le_min (by norm_num) (le_jsRound ?_)
  have h0 : (0 : ℚ) ≤ (x - 1500) / 2000 * 30 :=
    mul_nonneg (div_nonneg (by linarith) (by norm_num)) (by norm_num)
  push_cast
  linarith

/-- C6: the CAPE-to-probability mapping is monotone non-decreasing on
non-negative energies, never exceeds 90, and the bucket boundaries are
left-inclusive for the upper bucket: 100 J/kg maps to 10, 500 to 30 and
1500 to 60. -/
theorem capeToProbability_spec :
    (∀ x y : ℚ, 0 ≤ x → x ≤ y → capeToProbability x ≤ capeToProbability y) ∧
    (∀ x : ℚ, 0 ≤ x → capeToProbability x ≤ 90) ∧
    capeToProbability 100 = 10 ∧ capeToProbability 500 = 30 ∧
    capeToProbability 1500 = 60 := by
  refine ⟨?_, fun x _ => cape_le_ninety x,
    by unfold capeToProbability jsRound; norm_num,
    by unfold capeToProbability jsRound; norm_num,
    by unfold capeToProbability jsRound; norm_num⟩
  intro x y _ hxy
  by_cases hy1 : y < 100
  · have hx1 : x < 100 := lt_of_le_of_lt hxy hy1
    unfold capeToProbability
    rw [if_pos hx1, if_pos hy1]
    exact jsRound_mono (by gcongr)
  · by_cases hy2 : y < 500
    · by_cases hx1 : x < 100
      · exact le_trans (cape_le_ten hx1) (cape_ge_ten (not_lt.mp hy1))
      · have hx2 : x < 500 := lt_of_le_of_lt hxy hy2
        unfold capeToProbability
        rw [if_neg hx1, if_neg hy1, if_pos hx2, if_pos hy2]
        exact jsRound_mono (by gcongr)
    · by_cases hy3 : y < 1500
      · by_cases hx2 : x < 500
        · exact le_trans (cape_le_thirty hx2) (cape_ge_thirty (not_lt.mp hy2))
        · have hx3 : x < 1500 := lt_of_le_of_lt hxy hy3
          unfold capeToProbability
          rw [if_neg (by linarith [not_lt.mp hx2] : ¬x < 100), if_neg hx2,
            if_neg (by linarith [not_lt.mp hy2] : ¬y < 100), if_neg hy2,
            if_pos hx3, if_pos hy3]
          exact jsRound_mono (by gcongr)
      · by_cases hx3 : x < 1500
        · exact le_trans (cape_le_sixty hx3) (cape_ge_sixty (not_lt.mp hy3))
        · have h1500 : (1500 : ℚ) ≤ x := not_lt.mp hx3
          unfold capeToProbability
          rw [if_neg (by linarith : ¬x < 100), if_neg (by linarith : ¬x < 500),
            if_neg hx3, if_neg (by linarith : ¬y < 100),
            if_neg (by linarith : ¬y < 500), if_neg (by linarith : ¬y < 1500)]
          exact min_le_min (le_refl _) (jsRound_mono (by gcongr))

lemma sendAlertsLoop_attempts (mt : MessageType) (holdId : String) (nowMs : ℚ)
    (oracle : ℕ → SendOutcome) :
    ∀ (vs : List VehicleOnSite) (k : ℕ),
      (sendAlertsLoop mt holdId nowMs oracle vs k).attempts =
        vs.filterMap fun v => v.phone_number := by
  intro vs
  induction vs with
  | nil => intro k; rfl
  | cons v vs ih =>
    intro k
    unfold sendAlertsLoop
    cases hv : v.phone_number with
    | none => simpa [hv, List.filterMap_cons] using ih k
    | some phone =>
      dsimp only
      split_ifs <;> simp [hv, List.filterMap_cons, ih]

lemma sendAlertsLoop_results_log (mt : MessageType) (holdId : String) (nowMs : ℚ)
    (oracle : ℕ → SendOutcome) :
    ∀ (vs : List VehicleOnSite) (k : ℕ),
      (sendAlertsLoop mt holdId nowMs oracle vs k).results =
        (sendAlertsLoop mt holdId nowMs oracle vs k).log.map (fun e => e.record) ∧
      ∀ e ∈ (sendAlertsLoop mt holdId nowMs oracle vs k).log,
        e.hold_id = holdId ∧ e.record.message_type = mt := by
  intro vs
  induction vs with
  | nil => intro k; exact ⟨rfl, by intro e he; cases he⟩
  | cons v vs ih =>
    intro k
    unfold sendAlertsLoop
    cases hv : v.phone_number with
    | none => exact ih k
    | some phone =>
      dsimp only
      split_ifs with hsend hlog
      · refine ⟨by simp [(ih (k + 1)).1], ?_⟩
        intro e he
        rcases List.mem_cons.mp he with h | h
        · subst h; exact ⟨rfl, rfl⟩
        · exact (ih (k + 1)).2 e h
      · exact ih (k + 1)
      · exact ih (k + 1)

lemma sendAlertsLoop_all_ok (mt : MessageType) (holdId : String) (nowMs : ℚ)
    (oracle : ℕ → SendOutcome)
    (hok : ∀ j, (oracle j).sendOk = true ∧ (oracle j).logOk = true) :
    ∀ (vs : List VehicleOnSite) (k : ℕ),
      (sendAlertsLoop mt holdId nowMs oracle vs k).log.length =
        (sendAlertsLoop mt holdId nowMs oracle vs k).attempts.length := by
  intro vs
  induction vs with
  | nil => intro k; rfl
  | cons v vs ih =>
    intro k
    unfold sendAlertsLoop
    cases hv : v.phone_number with
    | none => exact ih k
    | some phone =>
      dsimp only
      rw [if_pos (hok k).1, if_pos (hok k).2]
      simp [ih (k + 1)]

lemma eligibleVehicles_cons_none (v : VehicleOnSite) (vs : List VehicleOnSite)
    (hv : v.phone_number = none) :
    eligibleVehicles (v :: vs) = eligibleVehicles vs := by
  unfold eligibleVehicles
  rw [List.filterMap_cons]
  simp [hv]

lemma eligibleVehicles_cons_some (v : VehicleOnSite) (vs : List VehicleOnSite)
    (p : String) (hv : v.phone_number = some p) :
    eligibleVehicles (v :: vs) = (v, p) :: eligibleVehicles vs := by
  unfold eligibleVehicles
  rw [List.filterMap_cons]
  simp [hv]

/-- A successful attempt's record is in the written log, whatever the
outcomes of every other attempt of the same run: if the i-th eligible
vehicle's provider call and log insert both succeed, the record built from
it is among the rows the run writes. -/
lemma sendAlertsLoop_success_mem (mt : MessageType) (holdId : String)
    (nowMs : ℚ) (oracle : ℕ → SendOutcome) :
    ∀ (vs : List VehicleOnSite) (k i : ℕ) (v : VehicleOnSite) (p : String),
      (eligibleVehicles vs)[i]? = some (v, p) →
      (oracle (k + i)).sendOk = true →
      (oracle (k + i)).logOk = true →
      ({ hold_id := holdId,
         record := attemptRecord mt nowMs v p (oracle (k + i)) } :
        LoggedNotification) ∈ (sendAlertsLoop mt holdId nowMs oracle vs k).log := by
  intro vs
  induction vs with
  | nil =>
    intro k i v p helig _ _
    simp [eligibleVehicles] at helig
  | cons v0 vs ih =>
    intro k i v p helig hsend hlog
    unfold sendAlertsLoop
    cases hv : v0.phone_number with
    | none =>
      rw [eligibleVehicles_cons_none v0 vs hv] at helig
      exact ih k i v p helig hsend hlog
    | some p0 =>
      rw [eligibleVehicles_cons_some v0 vs p0 hv] at helig
      dsimp only
      cases i with
      | zero =>
        rw [List.getElem?_cons_zero, Option.some_inj] at helig
        rw [Nat.add_zero] at hsend hlog ⊢
        rw [if_pos hsend, if_pos hlog]
        have hv0 : v0 = v := congrArg Prod.fst helig
        have hp0 : p0 = p := congrArg Prod.snd helig
        subst hv0
        subst hp0
        exact List.mem_cons_self _ _
      | succ i =>
        rw [List.getElem?_cons_succ] at helig
        have harith : k + (i + 1) = (k + 1) + i := by omega
        rw [harith] at hsend hlog ⊢
        have hmem := ih (k + 1) i v p helig hsend hlog
        split_ifs
        · exact List.mem_cons_of_mem _ hmem
        · exact hmem
        · exact hmem

/-- Conversely, every row the run writes comes from a successful attempt:
it is the record of some eligible vehicle whose provider call and log
insert both succeeded. -/
lemma sendAlertsLoop_log_from_success (mt : MessageType) (holdId : String)
    (nowMs : ℚ) (oracle : ℕ → SendOutcome) :
    ∀ (vs : List VehicleOnSite) (k : ℕ) (e : LoggedNotification),
      e ∈ (sendAlertsLoop mt holdId nowMs oracle vs k).log →
      ∃ (i : ℕ) (v : VehicleOnSite) (p : String),
        (eligibleVehicles vs)[i]? = some (v, p) ∧
        (oracle (k + i)).sendOk = true ∧ (oracle (k + i)).logOk = true ∧
        e = { hold_id := holdId,
              record := attemptRecord mt nowMs v p (oracle (k + i)) } := by
  intro vs
  induction vs with
  | nil =>
    intro k e he
    cases he
  | cons v0 vs ih =>
    intro k e he
    unfold sendAlertsLoop at he
    cases hv : v0.phone_number with
    | none =>
      rw [hv] at he
      obtain ⟨i, v, p, helig, hsend, hlog, hrec⟩ := ih k e he
      exact ⟨i, v, p, by rw [eligibleVehicles_cons_none v0 vs hv]; exact helig,
        hsend, hlog, hrec⟩
    | some p0 =>
      rw [hv] at he
      dsimp only at he
      by_cases hsend0 : (oracle k).sendOk = true
      · rw [if_pos hsend0] at he
        by_cases hlog0 : (oracle k).logOk = true
        · rw [if_pos hlog0] at he
          rcases List.mem_cons.mp he with hhead | htail
          · refine ⟨0, v0, p0, ?_, ?_, ?_, ?_⟩
            · rw [eligibleVehicles_cons_some v0 vs p0 hv,
                List.getElem?_cons_zero]
            · rw [Nat.add_zero]; exact hsend0
            · rw [Nat.add_zero]; exact hlog0
            · rw [Nat.add_zero]; exact hhead
          · obtain ⟨i, v, p, helig, hsend, hlog, hrec⟩ := ih (k + 1) e htail
            have harith : (k + 1) + i = k + (i + 1) := by omega
            rw [harith] at hsend hlog hrec
            exact ⟨i + 1, v, p,
              by rw [eligibleVehicles_cons_some v0 vs p0 hv,
                List.getElem?_cons_succ]; exact helig,
              hsend, hlog, hrec⟩
        · rw [if_neg hlog0] at he
          obtain ⟨i, v, p, helig, hsend, hlog, hrec⟩ := ih (k + 1) e he
          have harith : (k + 1) + i = k + (i + 1) := by omega
          rw [harith] at hsend hlog hrec
          exact ⟨i + 1, v, p,
            by rw [eligibleVehicles_cons_some v0 vs p0 hv,
              List.getElem?_cons_succ]; exact helig,
            hsend, hlog, hrec⟩
      · rw [if_neg hsend0] at he
        obtain ⟨i, v, p, helig, hsend, hlog, hrec⟩ := ih (k + 1) e he
        have harith : (k + 1) + i = k + (i + 1) := by omega
        rw [harith] at hsend hlog hrec
        exact ⟨i + 1, v, p,
          by rw [eligibleVehicles_cons_some v0 vs p0 hv,
            List.getElem?_cons_succ]; exact helig,
          hsend, hlog, hrec⟩

lemma processSite_fetch_none (t : Thresholds) (siteId : String) (inp : CycleInput)
    (s : SiteState) (hw : inp.fetchResult = none) :
    processSite t siteId inp s = (s, true) := by
  unfold processSite
  rw [hw]

lemma processSite_clear_branch (t : Thresholds) (siteId : String) (inp : CycleInput)
    (s : SiteState) (w : WeatherSnapshot) (h : HoldRecord)
    (hw : inp.fetchResult = some w)
    (hA : (if inp.lookupFails then none else getActiveHold s) = some h)
    (hclear : shouldClearHold t h.trigger_rule w h.triggered_at inp.nowMs
      h.hold_duration_mins = true) :
    processSite t siteId inp s =
      (let d := sendAllClearAlerts h.id inp.nowMs inp.sendOracle h.vehicles_on_site
       let s1 : SiteState := { s with notificationLog := s.notificationLog ++ d.log }
       if inp.closeFails then (s1, false)
       else (closeHold s1 h.id d.results inp.nowMs, true)) := by
  unfold processSite
  rw [hw, hA]
  dsimp only
  rw [if_pos hclear]

lemma processSite_no_clear (t : Thresholds) (siteId : String) (inp : CycleInput)
    (s : SiteState) (w : WeatherSnapshot) (h : HoldRecord)
    (hw : inp.fetchResult = some w)
    (hA : (if inp.lookupFails then none else getActiveHold s) = some h)
    (hclear : shouldClearHold t h.trigger_rule w h.triggered_at inp.nowMs
      h.hold_duration_mins = false) :
    processSite t siteId inp s = (s, true) := by
  unfold processSite
  rw [hw, hA]
  dsimp only
  rw [if_neg (by rw [hclear]; exact Bool.false_ne_true)]

lemma processSite_create_branch (t : Thresholds) (siteId : String) (inp : CycleInput)
    (s : SiteState) (w : WeatherSnapshot) (b : OshaThresholdBreach)
    (vehicles : List VehicleOnSite)
    (hw : inp.fetchResult = some w)
    (hA : (if inp.lookupFails then none else getActiveHold s) = none)
    (hb : evaluateThresholds t w = some b)
    (hv : inp.vehiclesResult = some vehicles) :
    processSite t siteId inp s =
      (if inp.createFails then (s, false)
       else
        let created := createHold s inp.newHoldId siteId b.rule w vehicles
          b.hold_duration_mins inp.nowMs
        let d := sendHoldAlerts created.2.id b.hold_duration_mins inp.nowMs
          inp.sendOracle vehicles
        ({ created.1 with notificationLog := created.1.notificationLog ++ d.log },
          true)) := by
  unfold processSite
  rw [hw, hA]
  dsimp only
  rw [hb, hv]

lemma processSite_no_hold_no_breach (t : Thresholds) (siteId : String)
    (inp : CycleInput) (s : SiteState) (w : WeatherSnapshot)
    (hw : inp.fetchResult = some w)
    (hA : (if inp.lookupFails then none else getActiveHold s) = none)
    (hb : evaluateThresholds t w = none) :
    processSite t siteId inp s = (s, true) := by
  unfold processSite
  rw [hw, hA]
  dsimp only
  rw [hb]

lemma processSite_vehicles_fail (t : Thresholds) (siteId : String)
    (inp : CycleInput) (s : SiteState) (w : WeatherSnapshot) (b : OshaThresholdBreach)
    (hw : inp.fetchResult = some w)
    (hA : (if inp.lookupFails then none else getActiveHold s) = none)
    (hb : evaluateThresholds t w = some b)
    (hv : inp.vehiclesResult = none) :
    processSite t siteId inp s = (s, false) := by
  unfold processSite
  rw [hw, hA]
  dsimp only
  rw [hb, hv]

lemma close_filter_length_le (holdId : String) (ns : List NotificationRecord)
    (now : ℚ) :
    ∀ l : List HoldRecord,
      ((l.map fun h => if h.id = holdId then
          { h with all_clear_at := some now, notifications_sent := some ns }
        else h).filter fun h => h.all_clear_at = none).length ≤
      (l.filter fun h => h.all_clear_at = none).length := by
  intro l
  induction l with
  | nil => exact le_refl _
  | cons a l ih =>
    rw [List.map_cons, List.filter_cons, List.filter_cons]
    by_cases hid : a.id = holdId
    · rw [if_pos hid]
      by_cases ha : a.all_clear_at = none
      · simp [ha]
        exact le_trans ih (Nat.le_succ _)
      · simp [ha]
        exact ih
    · rw [if_neg hid]
      by_cases ha : a.all_clear_at = none <;> simp [ha, ih]

lemma openHolds_closeHold_le (s : SiteState) (holdId : String)
    (ns : List NotificationRecord) (now : ℚ) :
    (openHolds (closeHold s holdId ns now)).length ≤ (openHolds s).length :=
  close_filter_length_le holdId ns now s.holds

lemma getActiveHold_eq_none_iff (s : SiteState) :
    getActiveHold s = none ↔ openHolds s = [] := by
  unfold getActiveHold
  rw [List.head?_eq_none_iff]
  constructor
  · intro h
    have hlen := congrArg List.length h
    rw [List.length_insertionSort] at hlen
    exact List.length_eq_zero.mp hlen
  · intro h
    rw [h]
    rfl

lemma processSite_preserves_invariant (t : Thresholds) (siteId : String)
    (inp : CycleInput) (s : SiteState) (hl : inp.lookupFails = false)
    (hs : holdsInvariant s) : holdsInvariant (processSite t siteId inp s).1 := by
  cases hw : inp.fetchResult with
  | none => rw [processSite_fetch_none t siteId inp s hw]; exact hs
  | some w =>
    cases hA : getActiveHold s with
    | some h =>
      have hA' : (if inp.lookupFails then none else getActiveHold s) = some h := by
        simp [hl, hA]
      cases hclear : shouldClearHold t h.trigger_rule w h.triggered_at inp.nowMs
          h.hold_duration_mins with
      | false =>
        rw [processSite_no_clear t siteId inp s w h hw hA' hclear]
        exact hs
      | true =>
        rw [processSite_clear_branch t siteId inp s w h hw hA' hclear]
        dsimp only
        by_cases hc : inp.closeFails
        · rw [if_pos hc]
          exact hs
        · rw [if_neg hc]
          exact le_trans (openHolds_closeHold_le _ _ _ _) hs
    | none =>
      have hA' : (if inp.lookupFails then none else getActiveHold s) = none := by
        simp [hl, hA]
      have hopen : openHolds s = [] := (getActiveHold_eq_none_iff s).mp hA
      cases hb : evaluateThresholds t w with
      | none =>
        rw [processSite_no_hold_no_breach t siteId inp s w hw hA' hb]
        exact hs
      | some b =>
        cases hv : inp.vehiclesResult with
        | none =>
          rw [processSite_vehicles_fail t siteId inp s w b hw hA' hb hv]
          exact hs
        | some vehicles =>
          rw [processSite_create_branch t siteId inp s w b vehicles hw hA' hb hv]
          by_cases hc : inp.createFails
          · rw [if_pos hc]
            exact hs
          · rw [if_neg hc]
            dsimp only
            unfold holdsInvariant openHolds createHold
            dsimp only
            rw [List.filter_append]
            unfold openHolds at hopen
            rw [hopen]
            simp

/-- C1 counterexample: starting from an empty site, one breach cycle leaves
one open hold; a second breach cycle during which the open-hold lookup
throws (swallowed as `null` by `processSite`) creates a second open hold for
the same site, violating the at-most-one-open-hold invariant. -/
theorem openHold_invariant_cex :
    (openHolds (runCycles PROD "site-1" [cycleNormal] emptyState)).length = 1 ∧
    (openHolds (runCycles PROD "site-1" [cycleNormal, cycleLookupDown]
      emptyState)).length = 2 := by
  exact ⟨by decide, by decide⟩

/-- C1 (amended): in every cycle whose open-hold lookup succeeds, a new hold
is created only when no hold is open, so across every sequence of cycles
with successful lookups at most one open hold per site exists at any time.
(When the lookup throws, `processSite` swallows the error and a breach can
create a second open hold.) -/
theorem holds_invariant_preserved (t : Thresholds) (siteId : String)
    (inputs : List CycleInput) (s : SiteState) (hs : holdsInvariant s)
    (hl : ∀ inp ∈ inputs, inp.lookupFails = false) :
    holdsInvariant (runCycles t siteId inputs s) := by
  induction inputs generalizing s with
  | nil => exact hs
  | cons inp inputs ih =>
    exact ih (processSite t siteId inp s).1
      (processSite_preserves_invariant t siteId inp s
        (hl inp (List.mem_cons_self inp inputs)) hs)
      fun i hi => hl i (List.mem_cons_of_mem inp hi)

/-- C1 witness: the amended invariant at a concrete one-cycle run. -/
theorem holds_invariant_preserved_witness :
    holdsInvariant (runCycles PROD "site-1" [cycleNormal] emptyState) :=
  holds_invariant_preserved PROD "site-1" [cycleNormal] emptyState
    (by unfold holdsInvariant; decide)
    (fun inp hi => by
      have h := List.mem_singleton.mp hi
      subst h
      rfl)

/-- C4 counterexample: with one open hold stored and the open-hold lookup
throwing, the pipeline step returns normally (no propagation) and inserts a
second hold row based on the substituted `null`: a failed persistence read
does not propagate out of `processSite`. -/
theorem persistence_read_failure_cex :
    (processSite PROD "site-1" cycleLookupDown stateOneOpen).2 = true ∧
    (processSite PROD "site-1" cycleLookupDown stateOneOpen).1.holds.length = 2 := by
  exact ⟨by decide, by decide⟩

/-- C4 (amended): a failure of `createHold` or `closeHold` propagates out of
the site's pipeline step for the cycle (the step throws, keeping only the
writes made before the throw); a failure of the `getActiveHold` read,
however, is swallowed by `.catch(() => null)` and the pipeline continues as
if no hold were open. -/
theorem persistence_write_failure_propagates :
    ∀ (t : Thresholds) (siteId : String) (inp : CycleInput) (s : SiteState),
      (∀ (w : WeatherSnapshot) (b : OshaThresholdBreach)
          (vehicles : List VehicleOnSite),
        inp.fetchResult = some w →
        (if inp.lookupFails then none else getActiveHold s) = none →
        evaluateThresholds t w = some b →
        inp.vehiclesResult = some vehicles →
        inp.createFails = true →
        processSite t siteId inp s = (s, false)) ∧
      (∀ (w : WeatherSnapshot) (h : HoldRecord),
        inp.fetchResult = some w →
        (if inp.lookupFails then none else getActiveHold s) = some h →
        shouldClearHold t h.trigger_rule w h.triggered_at inp.nowMs
          h.hold_duration_mins = true →
        inp.closeFails = true →
        processSite t siteId inp s =
          ({ s with notificationLog := s.notificationLog ++
              (sendAllClearAlerts h.id inp.nowMs inp.sendOracle
                h.vehicles_on_site).log }, false)) := by
  intro t siteId inp s
  constructor
  · intro w b vehicles hw hA hb hv hc
    rw [processSite_create_branch t siteId inp s w b vehicles hw hA hb hv,
      if_pos hc]
  · intro w h hw hA hclear hc
    rw [processSite_clear_branch t siteId inp s w h hw hA hclear]
    dsimp only
    rw [if_pos hc]

/-- C5 counterexample: a vehicle with a resolvable phone number whose Twilio
send throws gets a delivery attempt, but no NotificationRecord is produced
or persisted for it — the failure is only written to the console, not
recorded with a failure status. -/
theorem notification_failure_not_logged_cex :
    (sendHoldAlerts "hold-1" (some 30) 0 failOracle [vehicleDana]).attempts =
      ["+15550001111"] ∧
    (sendHoldAlerts "hold-1" (some 30) 0 failOracle [vehicleDana]).log = [] ∧
    (sendHoldAlerts "hold-1" (some 30) 0 failOracle [vehicleDana]).results = [] := by
  exact ⟨rfl, rfl, rfl⟩

/-- C5 (amended): every vehicle with a resolvable phone number gets exactly
one delivery attempt; per attempt, whenever the i-th eligible vehicle's
provider call and log insert succeed its record is persisted via
`logNotification` and returned, regardless of every other attempt's outcome,
and conversely every persisted row is the record of some successful attempt;
the records returned are exactly those persisted, all carrying the
dispatch's hold id and message type; when every call succeeds every attempt
is persisted.  An attempt whose provider call (or log insert) throws
produces no persisted record. -/
theorem notification_persistence :
    ∀ (holdId : String) (dur : Option ℚ) (nowMs : ℚ) (oracle : ℕ → SendOutcome)
      (vehicles : List VehicleOnSite),
      ((sendHoldAlerts holdId dur nowMs oracle vehicles).attempts =
        vehicles.filterMap fun v => v.phone_number) ∧
      ((sendHoldAlerts holdId dur nowMs oracle vehicles).results =
        (sendHoldAlerts holdId dur nowMs oracle vehicles).log.map
          fun e => e.record) ∧
      (∀ e ∈ (sendHoldAlerts holdId dur nowMs oracle vehicles).log,
        e.hold_id = holdId ∧ e.record.message_type = .hold) ∧
      ((∀ j, (oracle j).sendOk = true ∧ (oracle j).logOk = true) →
        (sendHoldAlerts holdId dur nowMs oracle vehicles).log.length =
          (sendHoldAlerts holdId dur nowMs oracle vehicles).attempts.length) ∧
      ((sendAllClearAlerts holdId nowMs oracle vehicles).attempts =
        vehicles.filterMap fun v => v.phone_number) ∧
      ((sendAllClearAlerts holdId nowMs oracle vehicles).results =
        (sendAllClearAlerts holdId nowMs oracle vehicles).log.map
          fun e => e.record) ∧
      (∀ e ∈ (sendAllClearAlerts holdId nowMs oracle vehicles).log,
        e.hold_id = holdId ∧ e.record.message_type = .all_clear) ∧
      ((∀ j, (oracle j).sendOk = true ∧ (oracle j).logOk = true) →
        (sendAllClearAlerts holdId nowMs oracle vehicles).log.length =
          (sendAllClearAlerts holdId nowMs oracle vehicles).attempts.length) ∧
      (∀ (i : ℕ) (v : VehicleOnSite) (p : String),
        (eligibleVehicles vehicles)[i]? = some (v, p) →
        (oracle i).sendOk = true → (oracle i).logOk = true →
        ({ hold_id := holdId,
           record := attemptRecord .hold nowMs v p (oracle i) } :
          LoggedNotification) ∈
            (sendHoldAlerts holdId dur nowMs oracle vehicles).log ∧
        attemptRecord .hold nowMs v p (oracle i) ∈
          (sendHoldAlerts holdId dur nowMs oracle vehicles).results) ∧
      (∀ e ∈ (sendHoldAlerts holdId dur nowMs oracle vehicles).log,
        ∃ (i : ℕ) (v : VehicleOnSite) (p : String),
          (eligibleVehicles vehicles)[i]? = some (v, p) ∧
          (oracle i).sendOk = true ∧ (oracle i).logOk = true ∧
          e = { hold_id := holdId,
                record := attemptRecord .hold nowMs v p (oracle i) }) ∧
      (∀ (i : ℕ) (v : VehicleOnSite) (p : String),
        (eligibleVehicles vehicles)[i]? = some (v, p) →
        (oracle i).sendOk = true → (oracle i).logOk = true →
        ({ hold_id := holdId,
           record := attemptRecord .all_clear nowMs v p (oracle i) } :
          LoggedNotification) ∈
            (sendAllClearAlerts holdId nowMs oracle vehicles).log ∧
        attemptRecord .all_clear nowMs v p (oracle i) ∈
          (sendAllClearAlerts holdId nowMs oracle vehicles).results) ∧
      (∀ e ∈ (sendAllClearAlerts holdId nowMs oracle vehicles).log,
        ∃ (i : ℕ) (v : VehicleOnSite) (p : String),
          (eligibleVehicles vehicles)[i]? = some (v, p) ∧
          (oracle i).sendOk = true ∧ (oracle i).logOk = true ∧
          e = { hold_id := holdId,
                record := attemptRecord .all_clear nowMs v p (oracle i) }) := by
  intro holdId dur nowMs oracle vehicles
  refine ⟨sendAlertsLoop_attempts .hold holdId nowMs oracle vehicles 0,
    (sendAlertsLoop_results_log .hold holdId nowMs oracle vehicles 0).1,
    (sendAlertsLoop_results_log .hold holdId nowMs oracle vehicles 0).2,
    fun hok => sendAlertsLoop_all_ok .hold holdId nowMs oracle hok vehicles 0,
    sendAlertsLoop_attempts .all_clear holdId nowMs oracle vehicles 0,
    (sendAlertsLoop_results_log .all_clear holdId nowMs oracle vehicles 0).1,
    (sendAlertsLoop_results_log .all_clear holdId nowMs oracle vehicles 0).2,
    fun hok => sendAlertsLoop_all_ok .all_clear holdId nowMs oracle hok vehicles 0,
    ?_, ?_, ?_, ?_⟩
  · intro i v p helig hsend hlog
    have hmem := sendAlertsLoop_success_mem .hold holdId nowMs oracle vehicles
      0 i v p helig (by simpa using hsend) (by simpa using hlog)
    rw [Nat.zero_add] at hmem
    refine ⟨hmem, ?_⟩
    unfold sendHoldAlerts
    rw [(sendAlertsLoop_results_log .hold holdId nowMs oracle vehicles 0).1]
    exact List.mem_map.mpr ⟨_, hmem, rfl⟩
  · intro e he
    have h := sendAlertsLoop_log_from_success .hold holdId nowMs oracle
      vehicles 0 e he
    simpa using h
  · intro i v p helig hsend hlog
    have hmem := sendAlertsLoop_success_mem .all_clear holdId nowMs oracle
      vehicles 0 i v p helig (by simpa using hsend) (by simpa using hlog)
    rw [Nat.zero_add] at hmem
    refine ⟨hmem, ?_⟩
    unfold sendAllClearAlerts
    rw [(sendAlertsLoop_results_log .all_clear holdId nowMs oracle vehicles 0).1]
    exact List.mem_map.mpr ⟨_, hmem, rfl⟩
  · intro e he
    have h := sendAlertsLoop_log_from_success .all_clear holdId nowMs oracle
      vehicles 0 e he
    simpa using h

/-- C8: a failed weather fetch leaves the site's stored state unchanged for
the cycle with a normal return (no hold created, closed or modified, even
if an expired timed hold is open), and within a cycle each site's pipeline
outcome is a function of that site's own input alone, so any one site's
failure leaves every other site's processing unchanged. -/
theorem fetch_failure_isolation :
    (∀ (t : Thresholds) (siteId : String) (inp : CycleInput) (s : SiteState),
      inp.fetchResult = none → processSite t siteId inp s = (s, true)) ∧
    (∀ (t : Thresholds) (sites : List SitePipelineInput) (j : ℕ),
      (poll t sites)[j]? =
        (sites[j]?).map fun p => processSite t p.siteId p.input p.state) := by
  refine ⟨fun t siteId inp s hw => processSite_fetch_none t siteId inp s hw, ?_⟩
  intro t sites j
  simp [poll]

/-- C9: a dispatch attempts delivery once for every vehicle with a
resolvable phone number, independently of any other recipient's outcome;
and the hold transition completes for every possible pattern of delivery
outcomes — a breach with no open hold appends exactly the new hold row, and
a clearing hold gets its clearing timestamp set on every matching row. -/
theorem dispatch_isolation :
    (∀ (holdId : String) (dur : Option ℚ) (nowMs : ℚ)
        (oracle oracle2 : ℕ → SendOutcome) (vehicles : List VehicleOnSite),
      (sendHoldAlerts holdId dur nowMs oracle vehicles).attempts =
        vehicles.filterMap (fun v => v.phone_number) ∧
      (sendHoldAlerts holdId dur nowMs oracle vehicles).attempts =
        (sendHoldAlerts holdId dur nowMs oracle2 vehicles).attempts ∧
      (sendAllClearAlerts holdId nowMs oracle vehicles).attempts =
        vehicles.filterMap fun v => v.phone_number) ∧
    (∀ (t : Thresholds) (siteId : String) (inp : CycleInput) (s : SiteState)
        (w : WeatherSnapshot) (b : OshaThresholdBreach)
        (vehicles : List VehicleOnSite),
      inp.fetchResult = some w →
      (if inp.lookupFails then none else getActiveHold s) = none →
      evaluateThresholds t w = some b →
      inp.vehiclesResult = some vehicles →
      inp.createFails = false →
      (processSite t siteId inp s).2 = true ∧
      (processSite t siteId inp s).1.holds = s.holds ++
        [(createHold s inp.newHoldId siteId b.rule w vehicles
          b.hold_duration_mins inp.nowMs).2]) ∧
    (∀ (t : Thresholds) (siteId : String) (inp : CycleInput) (s : SiteState)
        (w : WeatherSnapshot) (h : HoldRecord),
      inp.fetchResult = some w →
      (if inp.lookupFails then none else getActiveHold s) = some h →
      shouldClearHold t h.trigger_rule w h.triggered_at inp.nowMs
        h.hold_duration_mins = true →
      inp.closeFails = false →
      (processSite t siteId inp s).2 = true ∧
      ∀ hr ∈ (processSite t siteId inp s).1.holds,
        hr.id = h.id → hr.all_clear_at = some inp.nowMs) := by
  refine ⟨?_, ?_, ?_⟩
  · intro holdId dur nowMs oracle oracle2 vehicles
    exact ⟨sendAlertsLoop_attempts .hold holdId nowMs oracle vehicles 0,
      (sendAlertsLoop_attempts .hold holdId nowMs oracle vehicles 0).trans
        (sendAlertsLoop_attempts .hold holdId nowMs oracle2 vehicles 0).symm,
      sendAlertsLoop_attempts .all_clear holdId nowMs oracle vehicles 0⟩
  · intro t siteId inp s w b vehicles hw hA hb hv hc
    rw [processSite_create_branch t siteId inp s w b vehicles hw hA hb hv,
      if_neg (by rw [hc]; exact Bool.false_ne_true)]
    exact ⟨rfl, rfl⟩
  · intro t siteId inp s w h hw hA hclear hc
    rw [processSite_clear_branch t siteId inp s w h hw hA hclear]
    dsimp only
    rw [if_neg (by rw [hc]; exact Bool.false_ne_true)]
    refine ⟨rfl, ?_⟩
    intro hr hmem hid
    unfold closeHold at hmem
    dsimp only at hmem
    rcases List.mem_map.mp hmem with ⟨a, ha, rfl⟩
    by_cases hid2 : a.id = h.id
    · rw [if_pos hid2]
    · rw [if_neg hid2] at hid ⊢
      exact absurd hid hid2

/-- C2 witness: the priority theorem applied at a concrete snapshot whose
lightning, general-wind and heat conditions all hold. -/
theorem evaluateThresholds_priority_witness :
    ∃ b, evaluateThresholds PROD
        { wind_speed_mph := 30, wind_gust_mph := 42, apparent_temp_c := 40
          lightning_probability_pct := 45, weather_code := 0 } = some b ∧
      ruleCondition PROD
        { wind_speed_mph := 30, wind_gust_mph := 42, apparent_temp_c := 40
          lightning_probability_pct := 45, weather_code := 0 } b.rule ∧
      priorityIndex b.rule ≤ priorityIndex .EXTREME_HEAT :=
  evaluateThresholds_priority PROD
    { wind_speed_mph := 30, wind_gust_mph := 42, apparent_temp_c := 40
      lightning_probability_pct := 45, weather_code := 0 }
    .EXTREME_HEAT (by decide)
